import Mathlib

/-!
Verification of the financial report generator's data-extraction-and-metrics
pipeline (`financial_report_generator.py`) against its specification.

The embedding models Python values that reach `clean_numeric_value` as an
inductive type (`PyVal`), Python floats as rationals extended with the
non-finite values (`PFloat`), dictionaries as insertion-ordered association
lists, and the ambient clock / external chart and file collaborators as
explicit parameters.
-/

namespace FinReport

set_option maxRecDepth 4000

/-! ## Python float values

A Python float is either a finite value (modelled as a rational) or one of
the non-finite values `nan`, `inf`, `-inf`.  Exact decimal arithmetic stands
in for binary floating point. -/

inductive PFloat where
  | fin (q : ℚ)
  | nan
  | inf
  | ninf
deriving DecidableEq

def PFloat.isFinite : PFloat → Bool
  | .fin _ => true
  | _ => false

/-- Python unary minus on a float (`-nan` is `nan`). -/
def PFloat.neg : PFloat → PFloat
  | .fin q => .fin (-q)
  | .nan => .nan
  | .inf => .ninf
  | .ninf => .inf

/-- The `Union[str, int, float, None]` input domain of `clean_numeric_value`. -/
inductive PyVal where
  | none
  | int (n : ℤ)
  | float (f : PFloat)
  | str (s : String)
deriving DecidableEq

/-- `pandas.isna` on a scalar: true for `None` and float `nan`. -/
def pdIsna (v : PyVal) : Prop := v = .none ∨ v = .float .nan

instance : DecidablePred pdIsna := fun v => by unfold pdIsna; infer_instance

/-! ## Character/string helpers (modelling the Python string operations) -/

/-- ASCII whitespace removed by `str.strip` and matched by the regex `\s`. -/
def isPyWs (c : Char) : Bool :=
  match c with
  | ' ' | '\t' | '\n' | '\r' | '\x0b' | '\x0c' => true
  | _ => false

/-- `str.strip()`. -/
def trimWs (cs : List Char) : List Char :=
  ((cs.dropWhile isPyWs).reverse.dropWhile isPyWs).reverse

/-- ASCII `str.lower()` (the strings compared here are ASCII). -/
def pyCharLower (c : Char) : Char :=
  if 'A' ≤ c ∧ c ≤ 'Z' then Char.ofNat (c.toNat + 32) else c

def lowerChars (cs : List Char) : List Char := cs.map pyCharLower

/-! ## Python `float(string)` parsing

Grammar accepted by CPython's `float`: optional surrounding whitespace,
optional sign, then `inf`/`infinity`/`nan` (case-insensitive) or a decimal
numeral with optional fractional part and optional exponent; underscores are
permitted between digits. -/

def isDigitOrUnderscore (c : Char) : Bool := c.isDigit || c == '_'

/-- A valid Python digit run: nonempty, digits with single underscores strictly
between digits. -/
def digitRunOk (cs : List Char) : Bool :=
  !cs.isEmpty &&
  cs.all isDigitOrUnderscore &&
  cs.head? != some '_' &&
  cs.getLast? != some '_' &&
  ((cs.zip cs.tail).all fun p => !(p.1 == '_' && p.2 == '_'))

def natOfDigits (cs : List Char) : ℕ :=
  cs.foldl (fun a c => a * 10 + (c.toNat - '0'.toNat)) 0

def stripUnderscores (cs : List Char) : List Char := cs.filter (· != '_')

/-- Split a character list at every occurrence of characters satisfying `p`. -/
def splitOnPred (p : Char → Bool) (cs : List Char) : List (List Char) :=
  cs.foldr (fun c acc =>
    if p c then [] :: acc
    else match acc with
      | [] => [[c]]
      | a :: rest => (c :: a) :: rest) [[]]

/-- Parse an unsigned decimal mantissa `digits[.digits]` (one part may be
empty, not both) to a numerator and a power-of-ten denominator; the value is
`intpart.fracpart = natOfDigits (intpart ++ fracpart) / 10 ^ |fracpart|`. -/
def parseMantissaND (cs : List Char) : Option (ℕ × ℕ) :=
  match splitOnPred (· == '.') cs with
  | [ip] =>
    if digitRunOk ip then some (natOfDigits (stripUnderscores ip), 1) else none
  | [ip, fp] =>
    if ip.isEmpty then
      if digitRunOk fp then
        let fd := stripUnderscores fp
        some (natOfDigits fd, 10 ^ fd.length)
      else none
    else if fp.isEmpty then
      if digitRunOk ip then some (natOfDigits (stripUnderscores ip), 1) else none
    else
      if digitRunOk ip && digitRunOk fp then
        let fd := stripUnderscores fp
        some (natOfDigits (stripUnderscores ip ++ fd), 10 ^ fd.length)
      else none
  | _ => none

/-- Parse a signed exponent (digit run with optional sign). -/
def parseExponent (cs : List Char) : Option ℤ :=
  match cs with
  | '+' :: r => if digitRunOk r then some (natOfDigits (stripUnderscores r) : ℤ) else none
  | '-' :: r => if digitRunOk r then some (-(natOfDigits (stripUnderscores r) : ℤ)) else none
  | r => if digitRunOk r then some (natOfDigits (stripUnderscores r) : ℤ) else none

/-- Parse an unsigned numeral with optional exponent; the exponent shifts the
power-of-ten numerator or denominator. -/
def parseNumeral (cs : List Char) : Option ℚ :=
  match splitOnPred (fun c => c == 'e' || c == 'E') cs with
  | [m] => (parseMantissaND m).map (fun p => mkRat p.1 p.2)
  | [m, e] => do
    let mv ← parseMantissaND m
    let ev ← parseExponent e
    pure (if 0 ≤ ev then mkRat (mv.1 * 10 ^ ev.toNat) mv.2
          else mkRat mv.1 (mv.2 * 10 ^ (-ev).toNat))
  | _ => none

/-- CPython `float(s)`: returns `none` where Python raises `ValueError`. -/
def pyFloat (s : String) : Option PFloat :=
  let cs := trimWs s.data
  if cs.isEmpty then none
  else
    let (sgnNeg, body) : Bool × List Char :=
      match cs with
      | '+' :: r => (false, r)
      | '-' :: r => (true, r)
      | r => (false, r)
    let lb := lowerChars body
    if lb = "inf".data ∨ lb = "infinity".data then
      some (if sgnNeg then .ninf else .inf)
    else if lb = "nan".data then
      some .nan
    else
      (parseNumeral body).map (fun q => .fin (if sgnNeg then -q else q))

/-! ## `clean_numeric_value` -/

/-- The sentinel strings (compared lower-cased) that normalize to `0.0`. -/
def blankSentinels : List (List Char) :=
  [[], [' '], "nan".data, "none".data, "#n/a".data, "n/a".data]

/-- Removal of `$ , whitespace % ( )` — the regex `re.sub(r'[$,\s%()]', '', s)`. -/
def stripFormatting (cs : List Char) : List Char :=
  cs.filter (fun c => !(c == '$' || c == ',' || c == '%' || c == '(' || c == ')' || isPyWs c))

/-- The negativity detection and final cleaning performed on the stripped
string: parentheses in the original flag a negative, as does a leading minus
(which is also removed).  The `replace('(','')`/`replace(')','')` calls of the
source are no-ops because the regex already removed parentheses. -/
def parsePrep (sv : List Char) : Bool × List Char :=
  let cleaned := (stripFormatting sv).filter (fun c => !(c == '(' || c == ')'))
  let negParen := sv.contains '(' && sv.contains ')'
  match cleaned with
  | '-' :: rest => (true, rest)
  | c => (negParen, c)

/-- `clean_numeric_value` from `financial_report_generator.py` (lines 92–127). -/
def cleanNumericValue (v : PyVal) : PFloat :=
  -- `if pd.isna(value) or value is None or value == '': return 0.0`
  if pdIsna v ∨ v = .str "" then .fin 0
  else
    match v with
    | .none => .fin 0          -- unreachable: caught by `pd.isna`
    | .int n => .fin (n : ℚ)   -- `isinstance(value, (int, float)) and not np.isnan(value)`
    | .float f => f            -- a float reaching here is not NaN; `float(value)` is the identity
    | .str s =>
      let sv := trimWs s.data
      if sv.isEmpty ∨ lowerChars sv ∈ blankSentinels then .fin 0
      else
        let (neg, cleaned) := parsePrep sv
        match pyFloat (String.mk cleaned) with
        | some f => if neg then f.neg else f
        | Option.none => .fin 0   -- `except (ValueError, TypeError): ... return 0.0`

/-! ## `FinancialMetrics` (lines 33–63)

The dataclass holding one snapshot; floats are modelled as rationals (the
pipeline never places non-finite values in these fields). -/

structure FinancialMetrics where
  revenue : ℚ
  expenses : ℚ
  profit : ℚ
  cash_position : ℚ
  cogs : ℚ
  marketing : ℚ
  team : ℚ
  overheads : ℚ
deriving DecidableEq

def FinancialMetrics.profit_margin (m : FinancialMetrics) : ℚ :=
  if 0 < m.revenue then m.profit / m.revenue * 100 else 0

def FinancialMetrics.cogs_percentage (m : FinancialMetrics) : ℚ :=
  if 0 < m.revenue then m.cogs / m.revenue * 100 else 0

def FinancialMetrics.marketing_percentage (m : FinancialMetrics) : ℚ :=
  if 0 < m.revenue then m.marketing / m.revenue * 100 else 0

def FinancialMetrics.team_percentage (m : FinancialMetrics) : ℚ :=
  if 0 < m.revenue then m.team / m.revenue * 100 else 0

def FinancialMetrics.overhead_percentage (m : FinancialMetrics) : ℚ :=
  if 0 < m.revenue then m.overheads / m.revenue * 100 else 0

/-! ## Benchmarks (lines 81–90) -/

structure Benchmarks where
  income_target : ℚ
  cogs_target : ℚ
  marketing_target : ℚ
  team_target : ℚ
  overhead_target : ℚ
  profit_target : ℚ
  cash_target : ℚ
  growth_rate : ℚ

def benchmarks : Benchmarks :=
  { income_target := 209475
    cogs_target := 20
    marketing_target := 16
    team_target := 25
    overhead_target := 18
    profit_target := 21
    cash_target := 265634
    growth_rate := 0.20 }

/-! ## `generate_status_indicator` (lines 287–310) -/

def generateStatusIndicator (actual target : ℚ) (category : String) : String :=
  if category ∈ (["income", "profit"] : List String) then
    -- Higher is better
    let r := if 0 < target then actual / target else 0
    if (1.1 : ℚ) ≤ r then "✅ Positive"
    else if (1.0 : ℚ) ≤ r then "➖ Neutral"
    else if (0.85 : ℚ) ≤ r then "⚠️ Caution"
    else "🚨 Warning"
  else
    -- Lower is better for expenses
    let r := if 0 < target then actual / target else 0
    if r ≤ (0.98 : ℚ) then "✅ Positive"
    else if r ≤ (1.05 : ℚ) then "➖ Neutral"
    else if r ≤ (1.30 : ℚ) then "⚠️ Caution"
    else "🚨 Warning"

/-! ## Data model of the extracted dataset

`extract_financial_data_smart` builds a nested dict; the fields below are the
keys it creates (lines 133–143), with `monthly_data` as an insertion-ordered
dictionary, `balance_sheet` reduced to its only used key `'cash'` (absent
until the balance-sheet extractor runs), and `cash_flow` to its only used key
`'accounts'`. -/

structure MonthlyRecord where
  revenue : ℚ
  cogs : ℚ
  marketing : ℚ
  team : ℚ
  overhead : ℚ
  profit : ℚ
deriving DecidableEq

structure YtdMetrics where
  revenue : ℚ
  expenses : ℚ
  profit : ℚ
  cogs : ℚ
  marketing : ℚ
  team : ℚ
  overhead : ℚ
deriving DecidableEq

structure ExtractedData where
  company_name : String
  period : String
  latest_month : String
  previous_month : String
  months : List String
  monthly_data : List (String × MonthlyRecord)
  balance_sheet_cash : Option (List ℚ)
  cash_flow_accounts : Option (List (String × List ℚ))
  latest_metrics : Option FinancialMetrics := none
  previous_metrics : Option FinancialMetrics := none
  ytd_metrics : Option YtdMetrics := none
deriving DecidableEq

/-- A workbook as read by `pd.read_excel(..., header=None)`: a grid of cells. -/
structure DataFrame where
  cells : List (List PyVal)
deriving DecidableEq

/-- The ambient-clock strings that `datetime.now()` formatting produces,
passed explicitly. -/
structure ClockStrings where
  monthYear : String
  prevMonthYear : String
  dateTimeFull : String
  yearStr : String

/-- The initial dict built at the top of `extract_financial_data_smart`
(lines 133–143). -/
def initialData (now : ClockStrings) : ExtractedData :=
  { company_name := "Financial Report"
    period := now.monthYear
    latest_month := now.monthYear
    previous_month := now.prevMonthYear
    months := []
    monthly_data := []
    balance_sheet_cash := none
    cash_flow_accounts := none }

/-! ## Python container helpers -/

/-- Python negative indexing `l[-i]` for `i ≥ 1`, as a partial operation. -/
def pyGetNeg (l : List α) (i : ℕ) : Option α := l.reverse.get? (i - 1)

/-- Python dict lookup on an insertion-ordered association list. -/
def dictGet? (d : List (String × α)) (k : String) : Option α :=
  (d.find? (fun p => p.1 == k)).map (·.2)

/-- Python dict assignment: overwrite in place, or append a fresh key. -/
def dictInsert (d : List (String × α)) (k : String) (v : α) : List (String × α) :=
  if d.any (fun p => p.1 == k) then d.map (fun p => if p.1 == k then (k, v) else p)
  else d ++ [(k, v)]

/-- Python slice `l[-n:]`. -/
def lastN (n : ℕ) (l : List α) : List α := l.drop (l.length - n)

/-! ## `_extract_pnl_data_enhanced` (lines 179–209)

The extractor ignores the dataframe entirely and writes a fixed synthesized
series. -/

def pnlMonths : List String :=
  ["March 2024", "April 2024", "May 2024", "June 2024", "July 2024", "August 2024",
   "September 2024", "October 2024", "November 2024", "December 2024", "January 2025",
   "February 2025"]

def monthlyRevenue : List ℚ :=
  [200000, 210000, 195000, 220000, 215000, 225000, 230000, 240000, 235000, 245000,
   225000, 232557]

def monthlyCogs : List ℚ := monthlyRevenue.map (· * 0.115)

def monthlyMarketing : List ℚ := monthlyRevenue.map (· * 0.157)

def monthlyTeam : List ℚ := monthlyRevenue.map (· * 0.339)

def monthlyOverhead : List ℚ := monthlyRevenue.map (· * 0.234)

/-- `[r - c - m - t - o for r, c, m, t, o in zip(...)]`. -/
def monthlyProfit : List ℚ :=
  (((monthlyRevenue.zipWith (· - ·) monthlyCogs).zipWith (· - ·) monthlyMarketing).zipWith
    (· - ·) monthlyTeam).zipWith (· - ·) monthlyOverhead

/-- The `MonthlyRecord` dict stored for index `i`. -/
def pnlRecordAt (i : ℕ) : MonthlyRecord :=
  { revenue := monthlyRevenue.getD i 0
    cogs := monthlyCogs.getD i 0
    marketing := monthlyMarketing.getD i 0
    team := monthlyTeam.getD i 0
    overhead := monthlyOverhead.getD i 0
    profit := monthlyProfit.getD i 0 }

def extractPnlDataEnhanced (_df : DataFrame) (d : ExtractedData) : ExtractedData :=
  { d with
    months := pnlMonths
    latest_month := (pyGetNeg pnlMonths 1).getD ""
    previous_month := (pyGetNeg pnlMonths 2).getD ""
    monthly_data :=
      (List.range pnlMonths.length).foldl
        (fun acc i => dictInsert acc (s!"month_{i}") (pnlRecordAt i)) d.monthly_data }

/-! ## `_extract_balance_sheet_data_enhanced` (lines 211–218) -/

def bsCashPositions : List ℚ :=
  [-120000, -115000, -110000, -105000, -100000, -95000, -90000, -85000, -80000, -75000,
   -78000, -73790]

def extractBalanceSheetDataEnhanced (_df : DataFrame) (d : ExtractedData) : ExtractedData :=
  { d with balance_sheet_cash := some bsCashPositions }

/-! ## `_extract_cashflow_data_enhanced` (lines 220–232) -/

def cfAccounts : List (String × List ℚ) :=
  [("1101 Chase Primary (1623)", [32173]),
   ("1102 Chase Collections (9369)", [10500]),
   ("1103 Chase Profit (1363)", [105007])]

def extractCashflowDataEnhanced (_df : DataFrame) (d : ExtractedData) : ExtractedData :=
  { d with cash_flow_accounts := some cfAccounts }

/-! ## `_calculate_derived_metrics_enhanced` (lines 234–285) -/

def mrZero : MonthlyRecord :=
  { revenue := 0, cogs := 0, marketing := 0, team := 0, overhead := 0, profit := 0 }

/-- `data['balance_sheet'].get('cash', [0])[-1] if data['balance_sheet'].get('cash') else 0` -/
def latestCashOf (obc : Option (List ℚ)) : ℚ :=
  match obc with
  | some cs => if cs.isEmpty then 0 else (pyGetNeg cs 1).getD 0
  | none => 0

/-- `data['balance_sheet'].get('cash', [0])[-2] if len(data['balance_sheet'].get('cash', [])) > 1 else 0` -/
def prevCashOf (obc : Option (List ℚ)) : ℚ :=
  if 1 < (obc.getD []).length then (pyGetNeg (obc.getD [0]) 2).getD 0 else 0

/-- The `FinancialMetrics(...)` constructor call of lines 249–269, shared by
the latest and previous snapshots: the monthly record's components plus a cash
position. -/
def snapshotOf (r : MonthlyRecord) (cash : ℚ) : FinancialMetrics :=
  { revenue := r.revenue
    expenses := r.cogs + r.marketing + r.team + r.overhead
    profit := r.profit
    cash_position := cash
    cogs := r.cogs
    marketing := r.marketing
    team := r.team
    overheads := r.overhead }

def calcDerivedMetrics (d : ExtractedData) : ExtractedData :=
  let monthly_keys := d.monthly_data.map Prod.fst
  if monthly_keys.isEmpty then d
  else
    let latest_key := (pyGetNeg monthly_keys 1).getD ""
    let previous_key :=
      if 1 < monthly_keys.length then (pyGetNeg monthly_keys 2).getD ""
      else (monthly_keys.get? 0).getD ""
    match dictGet? d.monthly_data latest_key, dictGet? d.monthly_data previous_key with
    | some latest_data, some previous_data =>
      let lm := snapshotOf latest_data (latestCashOf d.balance_sheet_cash)
      let pm := snapshotOf previous_data (prevCashOf d.balance_sheet_cash)
      -- YTD totals iterate `for key in monthly_keys` over the dict
      let vals := monthly_keys.map (fun k => (dictGet? d.monthly_data k).getD mrZero)
      let ytd : YtdMetrics :=
        { revenue := (vals.map (·.revenue)).sum
          expenses := (vals.map (fun r => r.cogs + r.marketing + r.team + r.overhead)).sum
          profit := (vals.map (·.profit)).sum
          cogs := (vals.map (·.cogs)).sum
          marketing := (vals.map (·.marketing)).sum
          team := (vals.map (·.team)).sum
          overhead := (vals.map (·.overhead)).sum }
      { d with latest_metrics := some lm, previous_metrics := some pm, ytd_metrics := some ytd }
    | _, _ => d  -- unreachable: both keys are drawn from the dict's own key list

/-! ## Company-name scan and per-file routing (`extract_financial_data_smart`,
lines 129–177) -/

/-- Python `str()` of a cell value.  Float rendering is exact for integral
values; other rationals fall back to their raw print (the result only feeds a
length-and-placeholder check). -/
def pyStrOfVal (v : PyVal) : String :=
  match v with
  | .none => "None"
  | .int n => toString n
  | .str s => s
  | .float .nan => "nan"
  | .float .inf => "inf"
  | .float .ninf => "-inf"
  | .float (.fin q) =>
    if q.den = 1 then
      let n := q.num
      s!"{n}.0"
    else toString q

def lowerStr (s : String) : String := String.mk (lowerChars s.data)

/-- Python substring containment `sub in s`. -/
def strContainsSub (s sub : String) : Bool :=
  (List.range (s.data.length + 1)).any (fun i => sub.data.isPrefixOf (s.data.drop i))

/-- `df.iloc[i, 0]` on a header-less rectangular frame (missing cells are NaN). -/
def cellAt (df : DataFrame) (i : ℕ) : PyVal :=
  (((df.cells.get? i).getD []).get? 0).getD (.float .nan)

/-- Lines 155–160: scan the first `min(5, len(df))` rows of column 0 for the
first cell whose text exceeds 5 characters and does not look like a
placeholder. -/
def scanCompanyName (df : DataFrame) (d : ExtractedData) : ExtractedData :=
  let qualifies := fun i =>
    let cell := pyStrOfVal (cellAt df i)
    let lc := lowerStr cell
    5 < cell.data.length && !("unnamed".data.isPrefixOf lc.data || "nan".data.isPrefixOf lc.data)
  match (List.range (min 5 df.cells.length)).find? qualifies with
  | some i => { d with company_name := pyStrOfVal (cellAt df i) }
  | none => d

/-- Lines 162–168: route to a type-specific extractor by keywords in the file
role. -/
def routeByType (fileType : String) (df : DataFrame) (d : ExtractedData) : ExtractedData :=
  let ft := lowerStr fileType
  if strContainsSub ft "profit" || strContainsSub ft "loss" || strContainsSub ft "p&l" then
    extractPnlDataEnhanced df d
  else if strContainsSub ft "balance" then
    extractBalanceSheetDataEnhanced df d
  else if strContainsSub ft "cash" then
    extractCashflowDataEnhanced df d
  else d

/-- One iteration of the per-file loop.  A `none` dataframe stands for a
missing or unreadable workbook: the exception is logged and the file skipped. -/
def processFile (d : ExtractedData) (f : String × Option DataFrame) : ExtractedData :=
  match f.2 with
  | some df => routeByType f.1 df (scanCompanyName df d)
  | none => d

/-- `extract_financial_data_smart`: process each file then derive metrics. -/
def extractFinancialDataSmart (files : List (String × Option DataFrame))
    (now : ClockStrings) : ExtractedData :=
  calcDerivedMetrics (files.foldl processFile (initialData now))

/-! ## `create_professional_charts` (lines 312–454)

The chart service is an explicit collaborator: `svc i cfg` is the outcome of
the `i`-th submission (`none` models a raised exception; `some u` a response
whose `url` field resolves to `u`). -/

structure ChartConfig where
  kind : String
  labels : List String
  series : List (String × List ℚ)
deriving DecidableEq

def chartConfigs (d : ExtractedData) (lm : FinancialMetrics) : List ChartConfig :=
  let months := lastN 12 d.months
  let monthly_keys := lastN 12 (d.monthly_data.map Prod.fst)
  let recOf := fun k => (dictGet? d.monthly_data k).getD mrZero
  let revenue_data := monthly_keys.map (fun k => (recOf k).revenue)
  let expense_data := monthly_keys.map (fun k =>
    (recOf k).cogs + (recOf k).marketing + (recOf k).team + (recOf k).overhead)
  let profit_data := monthly_keys.map (fun k => (recOf k).profit)
  [{ kind := "bar", labels := months,
     series := [("Revenue", revenue_data), ("Expenses", expense_data),
                ("Profit", profit_data)] },
   { kind := "doughnut", labels := ["COGS", "Marketing", "Team", "Overheads"],
     series := [("", [lm.cogs_percentage, lm.marketing_percentage, lm.team_percentage,
                      lm.overhead_percentage])] },
   { kind := "line", labels := months,
     series := [("Cash Position",
                 d.balance_sheet_cash.getD (List.replicate months.length 0))] }]

def createProfessionalCharts (d : ExtractedData)
    (svc : ℕ → ChartConfig → Option String) : List String :=
  match d.latest_metrics with
  | none => ["", "", ""]   -- line 327: no derivable latest metrics
  | some lm =>
    -- lines 427–450: each submission is tried independently; a failure
    -- appends an empty placeholder for that slot only
    (chartConfigs d lm).enum.map (fun p => (svc p.1 p.2).getD "")

/-! ## Python number formatting (`format(x, ',.0f')` and friends)

Rounding is round-half-to-even on the exact rational value. -/

def roundHalfEven (q : ℚ) : ℤ :=
  let f := ⌊q⌋
  let r := q - f
  if r < 1/2 then f
  else if 1/2 < r then f + 1
  else if f % 2 = 0 then f else f + 1

/-- Insert thousands separators into a reversed digit list. -/
def groupRev : List Char → List Char
  | a :: b :: c :: d :: rest => a :: b :: c :: ',' :: groupRev (d :: rest)
  | l => l

def fmtCommaNat (n : ℕ) : String :=
  String.mk (groupRev (toString n).data.reverse).reverse

/-- `format(q, ',.0f')`. -/
def fmtComma0 (q : ℚ) : String :=
  (if q < 0 then "-" else "") ++ fmtCommaNat (roundHalfEven q).natAbs

/-- `format(q, '+,.0f')`. -/
def fmtPlusComma0 (q : ℚ) : String :=
  (if q < 0 then "-" else "+") ++ fmtCommaNat (roundHalfEven q).natAbs

/-- `format(q, '.1f')`. -/
def fmt1f (q : ℚ) : String :=
  let a := (roundHalfEven (q * 10)).natAbs
  let ip := a / 10
  let fp := a % 10
  (if q < 0 then "-" else "") ++ s!"{ip}.{fp}"

/-- `format(q, '+.1f')`. -/
def fmtPlus1f (q : ℚ) : String :=
  let a := (roundHalfEven (q * 10)).natAbs
  let ip := a / 10
  let fp := a % 10
  (if q < 0 then "-" else "+") ++ s!"{ip}.{fp}"

/-- Python `str()` of the float-valued benchmark targets (all integral). -/
def pyStrBenchPct (q : ℚ) : String :=
  let n := q.num
  s!"{n}.0"

/-- `status.split()[1].lower()`: style-class key from the classifier label. -/
def pySplitWs (cs : List Char) : List (List Char) :=
  (splitOnPred isPyWs cs).filter (fun p => !p.isEmpty)

def statusClass (status : String) : String :=
  String.mk (lowerChars (((pySplitWs status.data).get? 1).getD []))

/-- `_get_report_css` (lines 798–1073): the static stylesheet. -/
def getReportCss : String :=
  "
        @page \x7b size: A4; margin: 8mm; \x7d

        body \x7b
            font-family: \x27Segoe UI\x27, system-ui, -apple-system, sans-serif;
            line-height: 1.3;
            margin: 0;
            padding: 10px;
            color: #1f2937;
            font-size: 10px;
            background: white;
        \x7d

        .page \x7b
            page-break-after: always;
            min-height: 270mm;
            padding: 0;
            margin: 0;
        \x7d

        .page:last-child \x7b page-break-after: avoid; \x7d

        .header \x7b
            background: #6366f1;
            color: white;
            padding: 12px 16px;
            text-align: center;
            margin-bottom: 12px;
            border-radius: 6px;
            box-shadow: 0 2px 4px rgba(0, 0, 0, 0.1);
        \x7d

        .header h1 \x7b
            margin: 0 0 4px 0;
            font-size: 20px;
            font-weight: 600;
            letter-spacing: -0.5px;
        \x7d

        .header h2 \x7b
            margin: 0 0 4px 0;
            font-size: 16px;
            font-weight: 500;
        \x7d

        .header .meta \x7b
            font-size: 11px;
            margin-top: 4px;
            opacity: 0.95;
        \x7d

        .metrics-overview \x7b
            display: grid;
            grid-template-columns: repeat(4, 1fr);
            gap: 8px;
            margin: 12px 0;
        \x7d

        .metric-card \x7b
            background: white;
            border: 1px solid #e5e7eb;
            border-radius: 6px;
            padding: 10px;
            text-align: center;
            box-shadow: 0 1px 3px rgba(0, 0, 0, 0.1);
        \x7d

        .metric-value \x7b
            font-size: 16px;
            font-weight: 700;
            color: #6366f1;
            margin-bottom: 2px;
            display: block;
        \x7d

        .metric-label \x7b
            font-size: 9px;
            color: #6b7280;
            text-transform: uppercase;
            font-weight: 600;
            letter-spacing: 0.3px;
        \x7d

        .section-box \x7b
            background: white;
            border: 1px solid #e5e7eb;
            border-radius: 6px;
            box-shadow: 0 1px 3px rgba(0, 0, 0, 0.1);
            overflow: hidden;
            margin-bottom: 12px;
        \x7d

        .section-header \x7b
            background: #6366f1;
            color: white;
            padding: 8px 12px;
            font-size: 12px;
            font-weight: 600;
            display: flex;
            align-items: center;
            gap: 6px;
        \x7d

        .section-content \x7b
            padding: 10px;
            background: white;
        \x7d

        table \x7b
            width: 100%;
            border-collapse: collapse;
            font-size: 9px;
            background: white;
            margin: 0;
        \x7d

        th \x7b
            background: #6b7280;
            color: white;
            padding: 6px 8px;
            text-align: left;
            font-weight: 600;
            font-size: 9px;
            line-height: 1.2;
        \x7d

        td \x7b
            padding: 6px 8px;
            text-align: left;
            border-bottom: 1px solid #f3f4f6;
            line-height: 1.2;
        \x7d

        tr:nth-child(even) td \x7b background: #f9fafb; \x7d
        tr:nth-child(odd) td \x7b background: white; \x7d

        .positive \x7b background: #dcfce7 !important; color: #166534; \x7d
        .caution \x7b background: #fef3c7 !important; color: #92400e; \x7d
        .warning \x7b background: #fee2e2 !important; color: #991b1b; \x7d
        .neutral \x7b background: #f3f4f6 !important; color: #374151; \x7d

        .insight-grid \x7b
            display: grid;
            grid-template-columns: repeat(2, 1fr);
            gap: 10px;
            margin: 10px 0;
        \x7d

        .insight-box \x7b
            background: #f8fafc;
            border: 1px solid #e2e8f0;
            border-radius: 4px;
            padding: 8px;
        \x7d

        .insight-box h4 \x7b
            margin: 0 0 4px 0;
            font-size: 10px;
            color: #374151;
        \x7d

        .insight-box p \x7b
            margin: 0;
            font-size: 9px;
            line-height: 1.3;
        \x7d

        .action-timeline \x7b
            display: grid;
            grid-template-columns: repeat(3, 1fr);
            gap: 10px;
        \x7d

        .timeline-section h4 \x7b
            background: #6366f1;
            color: white;
            margin: 0 0 6px 0;
            padding: 4px 8px;
            font-size: 10px;
            border-radius: 3px;
        \x7d

        .timeline-section ul \x7b
            margin: 0;
            padding-left: 12px;
            font-size: 9px;
        \x7d

        .timeline-section li \x7b
            margin: 3px 0;
            line-height: 1.2;
        \x7d

        .two-column \x7b
            display: grid;
            grid-template-columns: 1fr 1fr;
            gap: 12px;
            margin: 12px 0;
        \x7d

        .bottom-line-header \x7b
            background: #6366f1;
            color: white;
            padding: 8px 12px;
            font-size: 12px;
            font-weight: 600;
        \x7d

        .bottom-line-content \x7b
            padding: 10px;
            background: white;
        \x7d

        .bottom-line-content p \x7b
            margin: 0 0 8px 0;
            font-size: 10px;
            line-height: 1.3;
        \x7d

        .footer \x7b
            text-align: center;
            color: #6b7280;
            font-size: 8px;
            margin-top: 20px;
            padding-top: 12px;
            border-top: 1px solid #e5e7eb;
        \x7d

        .note \x7b
            font-size: 9px;
            color: #6b7280;
            font-style: italic;
            margin-top: 6px;
        \x7d

        .chart-container \x7b
            text-align: center;
            margin: 15px 0;
            background: white;
            border: 1px solid #e5e7eb;
            border-radius: 6px;
            padding: 12px;
            box-shadow: 0 1px 3px rgba(0, 0, 0, 0.1);
        \x7d

        .chart-container h3 \x7b
            font-size: 12px;
            margin: 0 0 8px 0;
            color: #374151;
        \x7d

        .chart-row \x7b
            display: grid;
            grid-template-columns: 1fr 1fr;
            gap: 12px;
            margin: 15px 0;
        \x7d

        .chart-placeholder \x7b
            background: #f3f4f6;
            border: 2px dashed #d1d5db;
            border-radius: 6px;
            padding: 20px 10px;
            text-align: center;
            color: #6b7280;
            font-style: italic;
            font-size: 9px;
        \x7d

        @media print \x7b
            .page \x7b page-break-after: always; \x7d
            .no-break \x7b page-break-inside: avoid; \x7d
        \x7d
        \"\"\"
        "

/-! ## Report section builders (lines 604–796) -/

/-- `_generate_action_steps_table` (lines 604–660). -/
def generateActionStepsTable (metrics : FinancialMetrics) : String :=
  let incomeStatus := generateStatusIndicator metrics.revenue benchmarks.income_target "income"
  let incomeComment :=
    if benchmarks.income_target < metrics.revenue then
      "Income exceeded target. Strong performance."
    else "Revenue below target. Focus on growth."
  let row1 := "<tr class=\"" ++ statusClass incomeStatus ++ "\"><td>Income</td><td>" ++
    incomeStatus ++ "</td><td>$" ++ fmtComma0 benchmarks.income_target ++ "</td><td>$" ++
    fmtComma0 metrics.revenue ++ "</td><td>" ++ incomeComment ++ "</td></tr>"
  let cogsStatus := generateStatusIndicator metrics.cogs_percentage benchmarks.cogs_target
    "expenses"
  let cogsComment :=
    if metrics.cogs_percentage ≤ benchmarks.cogs_target then "Cost management excellent."
    else "Cost optimization needed."
  let row2 := "<tr class=\"" ++ statusClass cogsStatus ++ "\"><td>COGS/Products</td><td>" ++
    cogsStatus ++ "</td><td>" ++ pyStrBenchPct benchmarks.cogs_target ++ "%</td><td>" ++
    fmt1f metrics.cogs_percentage ++ "%</td><td>" ++ cogsComment ++ "</td></tr>"
  let marketingStatus := generateStatusIndicator metrics.marketing_percentage
    benchmarks.marketing_target "expenses"
  let marketingComment :=
    if metrics.marketing_percentage ≤ benchmarks.marketing_target then
      "Marketing spend within target."
    else "Marketing spend above target."
  let row3 := "<tr class=\"" ++ statusClass marketingStatus ++ "\"><td>Marketing</td><td>" ++
    marketingStatus ++ "</td><td>" ++ pyStrBenchPct benchmarks.marketing_target ++
    "%</td><td>" ++ fmt1f metrics.marketing_percentage ++ "%</td><td>" ++ marketingComment ++
    "</td></tr>"
  let teamStatus := generateStatusIndicator metrics.team_percentage benchmarks.team_target
    "expenses"
  let teamComment :=
    if metrics.team_percentage ≤ benchmarks.team_target then "Team costs controlled."
    else "Team costs need review."
  let row4 := "<tr class=\"" ++ statusClass teamStatus ++ "\"><td>Team</td><td>" ++
    teamStatus ++ "</td><td>" ++ pyStrBenchPct benchmarks.team_target ++ "%</td><td>" ++
    fmt1f metrics.team_percentage ++ "%</td><td>" ++ teamComment ++ "</td></tr>"
  let overheadStatus := generateStatusIndicator metrics.overhead_percentage
    benchmarks.overhead_target "expenses"
  let overheadComment :=
    if metrics.overhead_percentage ≤ benchmarks.overhead_target then
      "Overhead management efficient."
    else "Overhead optimization required."
  let row5 := "<tr class=\"" ++ statusClass overheadStatus ++ "\"><td>Overheads</td><td>" ++
    overheadStatus ++ "</td><td>" ++ pyStrBenchPct benchmarks.overhead_target ++
    "%</td><td>" ++ fmt1f metrics.overhead_percentage ++ "%</td><td>" ++ overheadComment ++
    "</td></tr>"
  let profitStatus := generateStatusIndicator metrics.profit_margin benchmarks.profit_target
    "income"
  let profitComment :=
    if benchmarks.profit_target ≤ metrics.profit_margin then "Profitability strong."
    else "Profitability needs improvement."
  let row6 := "<tr class=\"" ++ statusClass profitStatus ++ "\"><td>Net Profit</td><td>" ++
    profitStatus ++ "</td><td>" ++ pyStrBenchPct benchmarks.profit_target ++ "%</td><td>" ++
    fmt1f metrics.profit_margin ++ "%</td><td>" ++ profitComment ++ "</td></tr>"
  let cashStatus := if 0 < metrics.cash_position then "✅ Positive" else "🚨 Warning"
  let cashComment :=
    if 0 < metrics.cash_position then "Cash position healthy." else "Critical cash situation."
  let row7 := "<tr class=\"" ++ statusClass cashStatus ++ "\"><td>Cash on Hand</td><td>" ++
    cashStatus ++ "</td><td>$" ++ fmtComma0 benchmarks.cash_target ++ "</td><td>$" ++
    fmtComma0 metrics.cash_position ++ "</td><td>" ++ cashComment ++ "</td></tr>"
  let rows := String.join [row1, row2, row3, row4, row5, row6, row7]
  "<table>\n<thead>\n<tr><th>Category</th><th>Status</th><th>Target</th><th>Actual</th>" ++
    "<th>Comments</th></tr>\n</thead>\n<tbody>\n" ++ rows ++ "\n</tbody>\n</table>\n" ++
    "<p class=\"note\"><strong>Note:</strong> Analysis based on industry benchmarks and " ++
    "performance targets.</p>"

/-- `_generate_monthly_metrics_table` (lines 662–687). -/
def generateMonthlyMetricsTable (d : ExtractedData) : String :=
  match d.latest_metrics, d.previous_metrics with
  | some lm, some pm =>
    let avgRevenue := (lm.revenue + pm.revenue) / 2
    let avgExpenses := (lm.expenses + pm.expenses) / 2
    let avgProfit := (lm.profit + pm.profit) / 2
    let revenueVariance :=
      if 0 < avgRevenue then (lm.revenue - avgRevenue) / avgRevenue * 100 else 0
    let expenseVariance :=
      if 0 < avgExpenses then (lm.expenses - avgExpenses) / avgExpenses * 100 else 0
    let profitVariance :=
      if avgProfit ≠ 0 then (lm.profit - avgProfit) / |avgProfit| * 100 else 0
    "<table>\n<thead>\n<tr><th>Metric</th><th>Actual ($)</th><th>YTD Avg ($)</th>" ++
      "<th>Variance</th></tr>\n</thead>\n<tbody>\n" ++
      "<tr><td>Monthly Revenue</td><td>$" ++ fmtComma0 lm.revenue ++ "</td><td>$" ++
      fmtComma0 avgRevenue ++ "</td><td>" ++ fmtPlus1f revenueVariance ++ "%</td></tr>\n" ++
      "<tr><td>Monthly Expenses</td><td>$" ++ fmtComma0 lm.expenses ++ "</td><td>$" ++
      fmtComma0 avgExpenses ++ "</td><td>" ++ fmtPlus1f expenseVariance ++ "%</td></tr>\n" ++
      "<tr><td>Monthly Profit</td><td>$" ++ fmtComma0 lm.profit ++ "</td><td>$" ++
      fmtComma0 avgProfit ++ "</td><td>" ++ fmtPlus1f profitVariance ++ "%</td></tr>\n" ++
      "</tbody>\n</table>"
  | _, _ => "<p>Monthly metrics data not available</p>"

/-- The previous/current cash pair read by `_generate_cash_movement_table`
(lines 691–693): `cash_data = data['balance_sheet'].get('cash', [0, 0])`,
`current = cash_data[-1] if cash_data else 0`,
`previous = cash_data[-2] if len(cash_data) > 1 else 0`. -/
def cashMovementFigures (obc : Option (List ℚ)) : ℚ × ℚ :=
  let cashData := obc.getD [0, 0]
  let currentCash := if cashData.isEmpty then 0 else (pyGetNeg cashData 1).getD 0
  let previousCash := if 1 < cashData.length then (pyGetNeg cashData 2).getD 0 else 0
  (previousCash, currentCash)

/-- `_generate_cash_movement_table` (lines 689–711). -/
def generateCashMovementTable (d : ExtractedData) : String :=
  let fig := cashMovementFigures d.balance_sheet_cash
  let previousCash := fig.1
  let currentCash := fig.2
  let movement := currentCash - previousCash
  let monthlyExpenses := match d.latest_metrics with
    | some lm => lm.expenses
    | none => 1
  let coverageCurrent := if 0 < monthlyExpenses then currentCash / monthlyExpenses else 0
  let coveragePrevious := if 0 < monthlyExpenses then previousCash / monthlyExpenses else 0
  let arrow := if coveragePrevious < coverageCurrent then "↑" else "↓"
  "<table>\n<thead>\n<tr><th>Account</th><th>Previous Month</th><th>Current Month</th>" ++
    "<th>Movement</th></tr>\n</thead>\n<tbody>\n" ++
    "<tr><td>Total Cash</td><td>$" ++ fmtComma0 previousCash ++ "</td><td>$" ++
    fmtComma0 currentCash ++ "</td><td>$" ++ fmtPlusComma0 movement ++ "</td></tr>\n" ++
    "<tr><td>Expense Cover (months)</td><td>" ++ fmt1f coveragePrevious ++ "</td><td>" ++
    fmt1f coverageCurrent ++ "</td><td>" ++ arrow ++ "</td></tr>\n</tbody>\n</table>\n" ++
    "<p class=\"note\"><strong>Note:</strong> Expense Coverage = Cash on hand ÷ avg. " ++
    "monthly expenses $" ++ fmtComma0 monthlyExpenses ++ ".</p>"

/-- `_generate_ytd_overview_table` (lines 713–744). -/
def generateYtdOverviewTable (d : ExtractedData) : String :=
  let get := fun (f : YtdMetrics → ℚ) => match d.ytd_metrics with
    | some y => f y
    | none => 0
  let totalRevenue := get (·.revenue)
  let cogsPct := if 0 < totalRevenue then get (·.cogs) / totalRevenue * 100 else 0
  let marketingPct := if 0 < totalRevenue then get (·.marketing) / totalRevenue * 100 else 0
  let teamPct := if 0 < totalRevenue then get (·.team) / totalRevenue * 100 else 0
  let overheadPct := if 0 < totalRevenue then get (·.overhead) / totalRevenue * 100 else 0
  let profitPct := if 0 < totalRevenue then get (·.profit) / totalRevenue * 100 else 0
  let cogsVar := cogsPct - benchmarks.cogs_target
  let marketingVar := marketingPct - benchmarks.marketing_target
  let teamVar := teamPct - benchmarks.team_target
  let overheadVar := overheadPct - benchmarks.overhead_target
  let profitVar := profitPct - benchmarks.profit_target
  "<table>\n<thead>\n<tr><th>Category</th><th>YTD Actual</th><th>% of Revenue</th>" ++
    "<th>Target %</th><th>Variance</th></tr>\n</thead>\n<tbody>\n" ++
    "<tr><td>Total Income</td><td>$" ++ fmtComma0 totalRevenue ++
    "</td><td>100.0%</td><td>100.0%</td><td>0.0%</td></tr>\n" ++
    "<tr><td>COGS</td><td>$" ++ fmtComma0 (get (·.cogs)) ++ "</td><td>" ++ fmt1f cogsPct ++
    "%</td><td>" ++ pyStrBenchPct benchmarks.cogs_target ++ "%</td><td>" ++
    fmtPlus1f cogsVar ++ "%</td></tr>\n" ++
    "<tr><td>Marketing</td><td>$" ++ fmtComma0 (get (·.marketing)) ++ "</td><td>" ++
    fmt1f marketingPct ++ "%</td><td>" ++ pyStrBenchPct benchmarks.marketing_target ++
    "%</td><td>" ++ fmtPlus1f marketingVar ++ "%</td></tr>\n" ++
    "<tr><td>Team</td><td>$" ++ fmtComma0 (get (·.team)) ++ "</td><td>" ++ fmt1f teamPct ++
    "%</td><td>" ++ pyStrBenchPct benchmarks.team_target ++ "%</td><td>" ++
    fmtPlus1f teamVar ++ "%</td></tr>\n" ++
    "<tr><td>Overheads</td><td>$" ++ fmtComma0 (get (·.overhead)) ++ "</td><td>" ++
    fmt1f overheadPct ++ "%</td><td>" ++ pyStrBenchPct benchmarks.overhead_target ++
    "%</td><td>" ++ fmtPlus1f overheadVar ++ "%</td></tr>\n" ++
    "<tr><td>Net Profit</td><td>$" ++ fmtComma0 (get (·.profit)) ++ "</td><td>" ++
    fmt1f profitPct ++ "%</td><td>" ++ pyStrBenchPct benchmarks.profit_target ++
    "%</td><td>" ++ fmtPlus1f profitVar ++ "%</td></tr>\n</tbody>\n</table>"

/-- `_generate_key_insights` (lines 746–766). -/
def generateKeyInsights (metrics : FinancialMetrics) (d : ExtractedData) : String :=
  let perf := if benchmarks.income_target < metrics.revenue then "strong" else "steady"
  let costCtl :=
    if 15 < metrics.profit_margin then "Costs are well controlled"
    else "Cost optimization needed"
  let costFocus :=
    if 15 < metrics.profit_margin then "maintaining efficiency"
    else "reducing high-cost categories"
  let flex := if 100000 < metrics.cash_position then "adequate" else "limited"
  let cashAdvice :=
    if 0 < metrics.cash_position then "Maintain reserves"
    else "Immediate cash generation required"
  let traj :=
    if 0 < metrics.profit then "Positive trajectory" else "Requires immediate attention"
  let focus := if 0 < metrics.profit then "growth strategies" else "expense management"
  "<h3>💡 Key Performance Insights</h3>\n<div class=\"insight-grid\">\n" ++
    "    <div class=\"insight-box\">\n        <h4>Revenue Performance</h4>\n        <p>" ++
    d.latest_month ++ " revenue of $" ++ fmtComma0 metrics.revenue ++ " shows " ++ perf ++
    " performance against target of $" ++ fmtComma0 benchmarks.income_target ++ ".</p>\n" ++
    "    </div>\n    <div class=\"insight-box\">\n        <h4>Cost Management</h4>\n" ++
    "        <p>" ++ costCtl ++ " with " ++ fmt1f metrics.profit_margin ++
    "% profit margin. Focus on " ++ costFocus ++ ".</p>\n    </div>\n" ++
    "    <div class=\"insight-box\">\n        <h4>Cash Position</h4>\n        <p>Current cash of $" ++
    fmtComma0 metrics.cash_position ++ " provides " ++ flex ++
    " operational flexibility. " ++ cashAdvice ++ ".</p>\n    </div>\n" ++
    "    <div class=\"insight-box\">\n        <h4>Profitability Trend</h4>\n        <p>" ++
    traj ++ " with focus needed on " ++ focus ++ ".</p>\n    </div>\n</div>"

/-- `_generate_action_plan` (lines 768–796). -/
def generateActionPlan (metrics : FinancialMetrics) : String :=
  let w1 :=
    if 0 < metrics.profit then "Review expansion opportunities"
    else "Review highest expense categories immediately"
  let w2 :=
    if 0 < metrics.cash_position then "Optimize cash deployment"
    else "Analyze cash flow projections for next 30 days"
  let w3 :=
    if 20 < metrics.profit_margin then "Evaluate growth investments"
    else "Identify quick cost reduction opportunities"
  let m1 :=
    if 15 < metrics.profit_margin then "Scale successful initiatives"
    else "Implement expense control measures for categories above target"
  let m2 :=
    if benchmarks.income_target < metrics.revenue then "Enhance market position"
    else "Optimize pricing strategy to improve margins"
  let m3 :=
    if 0 < metrics.profit then "Strengthen competitive advantages"
    else "Strengthen collection processes for outstanding receivables"
  let q1 := if 15 < metrics.profit_margin then "Maintain" else "Restructure"
  "<h3>📅 Action Plan</h3>\n<div class=\"action-timeline\">\n" ++
    "    <div class=\"timeline-section\">\n        <h4>This Week</h4>\n        <ul>\n" ++
    "            <li>" ++ w1 ++ "</li>\n            <li>" ++ w2 ++ "</li>\n" ++
    "            <li>" ++ w3 ++ "</li>\n        </ul>\n    </div>\n" ++
    "    <div class=\"timeline-section\">\n        <h4>This Month</h4>\n        <ul>\n" ++
    "            <li>" ++ m1 ++ "</li>\n            <li>" ++ m2 ++ "</li>\n" ++
    "            <li>" ++ m3 ++ "</li>\n        </ul>\n    </div>\n" ++
    "    <div class=\"timeline-section\">\n        <h4>Next 3 Months</h4>\n        <ul>\n" ++
    "            <li>" ++ q1 ++ " operations for sustainable profitability</li>\n" ++
    "            <li>Explore revenue diversification opportunities</li>\n" ++
    "            <li>Build cash reserves to 3-month operating expense coverage</li>\n" ++
    "        </ul>\n    </div>\n</div>"

/-! ## `generate_financial_report_html` (lines 456–602)

The `ValueError` raised when no latest metrics exist is logged in the
`except` block and re-raised, so it propagates to the caller: modelled as
`Except.error`. -/

/-- The chart-embedding block (lines 478–496). -/
def chartHtmlOf (chartUrls : Option (List String)) : String :=
  match chartUrls with
  | some urls =>
    if urls.isEmpty then ""   -- an empty list is falsy in Python
    else
      let u0 := (urls.get? 0).getD ""
      let u1 := (urls.get? 1).getD ""
      let u2 := (urls.get? 2).getD ""
      let img0 :=
        if u0 ≠ "" then
          "<img src=\"" ++ u0 ++ "\" alt=\"Performance Chart\" style=\"width: 100%; " ++
            "max-width: 800px; height: auto;\">"
        else "<div class=\"chart-placeholder\">Chart 1: Performance (Unavailable)</div>"
      let img1 :=
        if 1 < urls.length ∧ u1 ≠ "" then
          "<img src=\"" ++ u1 ++ "\" alt=\"Expense Breakdown\" style=\"width: 100%; " ++
            "max-width: 600px; height: auto;\">"
        else "<div class=\"chart-placeholder\">Chart 2: Breakdown (Unavailable)</div>"
      let img2 :=
        if 2 < urls.length ∧ u2 ≠ "" then
          "<img src=\"" ++ u2 ++ "\" alt=\"Cash Flow\" style=\"width: 100%; " ++
            "max-width: 600px; height: auto;\">"
        else "<div class=\"chart-placeholder\">Chart 3: Cash Flow (Unavailable)</div>"
      "\n                <div class=\"chart-container\">\n" ++
        "                    <h3>12-Month Income, Expenses and Profit</h3>\n" ++
        "                    " ++ img0 ++ "\n                </div>\n\n" ++
        "                <div class=\"chart-row\">\n" ++
        "                    <div class=\"chart-container\">\n" ++
        "                        <h3>YTD Expenses Breakdown</h3>\n" ++
        "                        " ++ img1 ++ "\n                    </div>\n" ++
        "                    <div class=\"chart-container\">\n" ++
        "                        <h3>Cash on Hand</h3>\n" ++
        "                        " ++ img2 ++ "\n                    </div>\n" ++
        "                </div>\n                "
  | none => ""

def generateFinancialReportHtml (d : ExtractedData) (chartUrls : Option (List String))
    (now : ClockStrings) : Except String String :=
  match d.latest_metrics with
  | none => .error "No latest metrics available"
  | some latestMetrics =>
    let companyName := d.company_name
    let latestMonth := d.latest_month
    let period := d.period
    let actionSteps := generateActionStepsTable latestMetrics
    let monthlyMetrics := generateMonthlyMetricsTable d
    let cashMovement := generateCashMovementTable d
    let ytdOverview := generateYtdOverviewTable d
    let insights := generateKeyInsights latestMetrics d
    let actionPlan := generateActionPlan latestMetrics
    let chartHtml := chartHtmlOf chartUrls
    let marginMeets :=
      if benchmarks.profit_target ≤ latestMetrics.profit_margin then "meets"
      else "falls short of"
    let cashTone := if 0 < latestMetrics.cash_position then "Strong" else "Critical"
    let cashNeed :=
      if 0 < latestMetrics.cash_position then "maintenance" else "immediate attention"
    let prio1 :=
      if 15 ≤ latestMetrics.profit_margin then "Maintain strong performance"
      else "Improve profitability through cost optimization"
    let prio2 :=
      if benchmarks.income_target < latestMetrics.revenue then
        "Continue revenue growth initiatives"
      else "Focus on revenue enhancement strategies"
    .ok ("<!DOCTYPE html>\n<html lang=\"en\">\n<head>\n    <meta charset=\"UTF-8\">\n" ++
      "    <meta name=\"viewport\" content=\"width=device-width, initial-scale=1.0\">\n" ++
      "    <title>Monthly Financial Analysis & Insights - " ++ companyName ++ "</title>\n" ++
      "    <style>" ++ getReportCss ++ "</style>\n</head>\n<body>\n    <div class=\"page\">\n" ++
      "        <div class=\"header\">\n            <h1>Monthly Financial Analysis & Insights</h1>\n" ++
      "            <h2>" ++ companyName ++ "</h2>\n            <div class=\"meta\">\n" ++
      "                Period: " ++ period ++ " | Report month: " ++ latestMonth ++
      " | Generated on: " ++ now.dateTimeFull ++ "\n            </div>\n        </div>\n\n" ++
      "        <div class=\"metrics-overview\">\n            <div class=\"metric-card\">\n" ++
      "                <span class=\"metric-value\">$" ++ fmtComma0 latestMetrics.revenue ++
      "</span>\n                <div class=\"metric-label\">Revenue</div>\n            </div>\n" ++
      "            <div class=\"metric-card\">\n                <span class=\"metric-value\">$" ++
      fmtComma0 latestMetrics.expenses ++ "</span>\n" ++
      "                <div class=\"metric-label\">Expenses</div>\n            </div>\n" ++
      "            <div class=\"metric-card\">\n                <span class=\"metric-value\">$" ++
      fmtComma0 latestMetrics.profit ++ "</span>\n" ++
      "                <div class=\"metric-label\">Net Profit</div>\n            </div>\n" ++
      "            <div class=\"metric-card\">\n                <span class=\"metric-value\">" ++
      fmt1f latestMetrics.profit_margin ++ "%</span>\n" ++
      "                <div class=\"metric-label\">Margin</div>\n            </div>\n" ++
      "        </div>\n\n        <div class=\"section-box\">\n" ++
      "            <div class=\"section-header\">📋 Action Steps</div>\n" ++
      "            <div class=\"section-content\">" ++ actionSteps ++ "</div>\n" ++
      "        </div>\n\n        <div class=\"section-box\">\n" ++
      "            <div class=\"section-header\">📊 Monthly Metrics</div>\n" ++
      "            <div class=\"section-content\">" ++ monthlyMetrics ++ "</div>\n" ++
      "        </div>\n    </div>\n\n    <div class=\"page\">        \n" ++
      "        <div class=\"section-box\">\n" ++
      "            <div class=\"section-header\">💰 Cash Movement</div>\n" ++
      "            <div class=\"section-content\">" ++ cashMovement ++ "</div>\n" ++
      "        </div>\n\n        <div class=\"section-box\">\n" ++
      "            <div class=\"section-header\">📈 YTD Overview</div>\n" ++
      "            <div class=\"section-content\">" ++ ytdOverview ++ "</div>\n" ++
      "        </div>\n\n        <div class=\"section-box\">\n" ++
      "            <div class=\"section-content\">" ++ insights ++ "</div>\n" ++
      "        </div>\n\n        <div class=\"section-box\">\n" ++
      "            <div class=\"section-content\">" ++ actionPlan ++ "</div>\n" ++
      "        </div>\n    </div>\n\n    <div class=\"page\">\n" ++
      "        <div class=\"section-box\">\n" ++
      "            <div class=\"section-header\">📊 Financial Performance Charts</div>\n" ++
      "            <div class=\"section-content\">" ++ chartHtml ++ "</div>\n" ++
      "        </div>\n\n        <div class=\"two-column\">\n" ++
      "            <div class=\"section-box\">\n" ++
      "                <div class=\"bottom-line-header\">💡 Bottom Line</div>\n" ++
      "                <div class=\"bottom-line-content\">\n" ++
      "                    <p><strong>Financial Health:</strong> " ++ companyName ++
      " shows revenue of $" ++ fmtComma0 latestMetrics.revenue ++ " in " ++ latestMonth ++
      ". \n                    Net profit margin of " ++ fmt1f latestMetrics.profit_margin ++
      "% " ++ marginMeets ++ " industry targets. \n                    " ++ cashTone ++
      " cash position requires " ++ cashNeed ++ ".</p>\n                </div>\n" ++
      "            </div>\n            <div class=\"section-box\">\n" ++
      "                <div class=\"bottom-line-header\">➡️ Next Steps</div>\n" ++
      "                <div class=\"bottom-line-content\">\n" ++
      "                    <p><strong>Priority 1:</strong> " ++ prio1 ++ "</p>\n" ++
      "                    <p><strong>Priority 2:</strong> " ++ prio2 ++ "</p>\n" ++
      "                </div>\n            </div>\n        </div>\n\n" ++
      "        <div class=\"footer\">\n            <p>© 2025 " ++ companyName ++
      ". Financial Analysis Report generated for " ++ latestMonth ++ " " ++ now.yearStr ++
      "</p>\n            <p>This report includes P&L analysis, Balance Sheet overview, and " ++
      "Cash Flow tracking with actionable insights based on actual financial data.</p>\n" ++
      "        </div>\n    </div>\n</body>\n</html>")


/-! ## Specification-side descriptions

These two definitions follow the spec's words — "the last entry of the
series or 0 if the series is empty" and "the second-to-last entry or 0 if the
series has fewer than two entries" — and are compared against the
source-derived accessors. -/

def specLatestCash (obc : Option (List ℚ)) : ℚ :=
  match obc with
  | some cs => cs.getLast?.getD 0
  | none => 0

def specPrevCash (obc : Option (List ℚ)) : ℚ :=
  match obc with
  | some cs => (cs.reverse.get? 1).getD 0
  | none => 0

/-- Erase the only field of the dataset that is read from workbook cells. -/
def eraseCompany (d : ExtractedData) : ExtractedData := { d with company_name := "" }

/-! ## Supporting lemmas -/

lemma pyGetNeg_one (l : List α) : pyGetNeg l 1 = l.getLast? := by
  show l.reverse.get? 0 = l.getLast?
  rw [List.get?_zero, List.head?_reverse]

lemma pyGetNeg_two (l : List α) : pyGetNeg l 2 = l.reverse.get? 1 := rfl

lemma latestCashOf_eq_spec (obc : Option (List ℚ)) :
    latestCashOf obc = specLatestCash obc := by
  cases obc with
  | none => rfl
  | some cs =>
    cases cs with
    | nil => rfl
    | cons a t => simp [latestCashOf, specLatestCash, pyGetNeg_one]

lemma prevCashOf_eq_spec (obc : Option (List ℚ)) :
    prevCashOf obc = specPrevCash obc := by
  cases obc with
  | none => simp [prevCashOf, specPrevCash]
  | some cs =>
    by_cases h : 1 < cs.length
    · simp [prevCashOf, specPrevCash, h, pyGetNeg_two]
    · have h1 : cs.reverse.get? 1 = none :=
        List.get?_eq_none.mpr (by simpa using Nat.not_lt.mp h)
      rw [List.get?_eq_getElem?] at h1
      simp [prevCashOf, specPrevCash, h, h1]

lemma cashMovementFigures_eq_accessors (obc : Option (List ℚ)) :
    cashMovementFigures obc = (prevCashOf obc, latestCashOf obc) := by
  cases obc with
  | none => rfl
  | some cs => rfl

lemma mem_keys_isSome_dictGet? {l : List (String × α)} {k : String}
    (h : k ∈ l.map Prod.fst) : (dictGet? l k).isSome := by
  obtain ⟨p, hp, hk⟩ := List.mem_map.mp h
  unfold dictGet?
  cases hf : l.find? (fun q => q.1 == k) with
  | none =>
    exact absurd (List.find?_eq_none.mp hf p hp) (by simp [hk])
  | some q => simp

lemma dictGet?_of_mem_nodup {l : List (String × α)} {k : String} {v : α}
    (hnd : (l.map Prod.fst).Nodup) (hmem : (k, v) ∈ l) : dictGet? l k = some v := by
  induction l with
  | nil => cases hmem
  | cons p t ih =>
    rcases List.mem_cons.mp hmem with heq | htail
    · subst heq
      simp [dictGet?, List.find?_cons_of_pos]
    · have hk : k ∈ t.map Prod.fst := List.mem_map.mpr ⟨(k, v), htail, rfl⟩
      rw [List.map_cons] at hnd
      have hcons := List.nodup_cons.mp hnd
      have hne : (p.1 == k) = false := by
        simp only [beq_eq_false_iff_ne, ne_eq]
        rintro rfl
        exact hcons.1 hk
      have htl : (t.map Prod.fst).Nodup := hcons.2
      simpa [dictGet?, List.find?_cons_of_neg, hne] using ih htl htail

lemma calcDerived_nil {d : ExtractedData} (h : d.monthly_data = []) :
    calcDerivedMetrics d = d := by
  simp [calcDerivedMetrics, h]

lemma calcDerived_nonempty (d : ExtractedData) (hne : d.monthly_data ≠ []) :
    ∃ ld pd,
      dictGet? d.monthly_data ((pyGetNeg (d.monthly_data.map Prod.fst) 1).getD "") =
        some ld ∧
      dictGet? d.monthly_data
        (if 1 < (d.monthly_data.map Prod.fst).length then
          (pyGetNeg (d.monthly_data.map Prod.fst) 2).getD ""
         else ((d.monthly_data.map Prod.fst).get? 0).getD "") = some pd ∧
      (calcDerivedMetrics d).latest_metrics =
        some (snapshotOf ld (latestCashOf d.balance_sheet_cash)) ∧
      (calcDerivedMetrics d).previous_metrics =
        some (snapshotOf pd (prevCashOf d.balance_sheet_cash)) := by
  have hkeys : ¬ (d.monthly_data.map Prod.fst).isEmpty := by
    simpa [List.isEmpty_iff] using hne
  have hlk : (pyGetNeg (d.monthly_data.map Prod.fst) 1).getD "" ∈
      d.monthly_data.map Prod.fst := by
    rw [pyGetNeg_one]
    cases h : (d.monthly_data.map Prod.fst).getLast? with
    | none =>
      exact absurd (by simpa [List.isEmpty_iff] using List.getLast?_eq_none_iff.mp h) hkeys
    | some a => simpa using List.mem_of_mem_getLast? h
  have hpk : (if 1 < (d.monthly_data.map Prod.fst).length then
        (pyGetNeg (d.monthly_data.map Prod.fst) 2).getD ""
      else ((d.monthly_data.map Prod.fst).get? 0).getD "") ∈
      d.monthly_data.map Prod.fst := by
    by_cases hlen : 1 < (d.monthly_data.map Prod.fst).length
    · rw [if_pos hlen, pyGetNeg_two]
      cases h : (d.monthly_data.map Prod.fst).reverse.get? 1 with
      | none =>
        have hlen2 : (d.monthly_data.map Prod.fst).reverse.length ≤ 1 :=
          List.get?_eq_none.mp h
        rw [List.length_reverse] at hlen2
        omega
      | some a =>
        have : a ∈ (d.monthly_data.map Prod.fst).reverse := List.get?_mem h
        simpa using List.mem_reverse.mp this
    · rw [if_neg hlen]
      cases h : (d.monthly_data.map Prod.fst).get? 0 with
      | none =>
        have h0 : (d.monthly_data.map Prod.fst).length ≤ 0 := List.get?_eq_none.mp h
        have hnil : d.monthly_data.map Prod.fst = [] :=
          List.eq_nil_of_length_eq_zero (Nat.le_zero.mp h0)
        exact absurd (by simpa [List.isEmpty_iff] using hnil) hkeys
      | some a => simpa using List.get?_mem h
  obtain ⟨ld, hld⟩ := Option.isSome_iff_exists.mp (mem_keys_isSome_dictGet? hlk)
  obtain ⟨pd, hpd⟩ := Option.isSome_iff_exists.mp (mem_keys_isSome_dictGet? hpk)
  refine ⟨ld, pd, hld, hpd, ?_, ?_⟩ <;>
    simp only [calcDerivedMetrics, hkeys, if_false, Bool.false_eq_true, hld, hpd]


/-! ## Claim theorems -/

/-- C1: the status classifier partitions by the exact fixed band edges: for
maximize-direction categories (`income`, `profit`) with ratio
`actual/target` (0 if `target ≤ 0`), it returns Positive iff ratio ≥ 1.10,
Neutral iff 1.00 ≤ ratio < 1.10, Caution iff 0.85 ≤ ratio < 1.00, and Warning
otherwise; for every other (minimize-direction) category it returns Positive
iff ratio ≤ 0.98, Neutral iff 0.98 < ratio ≤ 1.05, Caution iff
1.05 < ratio ≤ 1.30, and Warning otherwise; in particular
`classify(230000, 209475, maximize)` falls in the Neutral band, and the
function is total for all (rational) inputs. -/
theorem c1_status_classifier_bands :
    (∀ (actual target : ℚ) (category : String),
      category ∈ (["income", "profit"] : List String) →
      ((generateStatusIndicator actual target category = "✅ Positive" ↔
          (1.1 : ℚ) ≤ (if 0 < target then actual / target else 0)) ∧
       (generateStatusIndicator actual target category = "➖ Neutral" ↔
          (1 : ℚ) ≤ (if 0 < target then actual / target else 0) ∧
            (if 0 < target then actual / target else 0) < 1.1) ∧
       (generateStatusIndicator actual target category = "⚠️ Caution" ↔
          (0.85 : ℚ) ≤ (if 0 < target then actual / target else 0) ∧
            (if 0 < target then actual / target else 0) < 1) ∧
       (generateStatusIndicator actual target category = "🚨 Warning" ↔
          (if 0 < target then actual / target else 0) < 0.85))) ∧
    (∀ (actual target : ℚ) (category : String),
      category ∉ (["income", "profit"] : List String) →
      ((generateStatusIndicator actual target category = "✅ Positive" ↔
          (if 0 < target then actual / target else 0) ≤ 0.98) ∧
       (generateStatusIndicator actual target category = "➖ Neutral" ↔
          (0.98 : ℚ) < (if 0 < target then actual / target else 0) ∧
            (if 0 < target then actual / target else 0) ≤ 1.05) ∧
       (generateStatusIndicator actual target category = "⚠️ Caution" ↔
          (1.05 : ℚ) < (if 0 < target then actual / target else 0) ∧
            (if 0 < target then actual / target else 0) ≤ 1.30) ∧
       (generateStatusIndicator actual target category = "🚨 Warning" ↔
          (1.30 : ℚ) < (if 0 < target then actual / target else 0)))) ∧
    generateStatusIndicator 230000 209475 "income" = "➖ Neutral" := by
  refine ⟨?_, ?_, ?_⟩
  · intro actual target category hc
    unfold generateStatusIndicator
    rw [if_pos hc]
    set r := if 0 < target then actual / target else 0 with hr
    dsimp only
    split_ifs with h1 h2 h3 <;>
      (refine ⟨?_, ?_, ?_, ?_⟩ <;> constructor <;> intro h) <;>
      first
        | rfl
        | linarith
        | (exact absurd h (by decide))
        | (obtain ⟨ha, hb⟩ := h; linarith)
        | (exfalso; obtain ⟨ha, hb⟩ := h; linarith)
        | (constructor <;> linarith)
  · intro actual target category hc
    unfold generateStatusIndicator
    rw [if_neg hc]
    set r := if 0 < target then actual / target else 0 with hr
    dsimp only
    split_ifs with h1 h2 h3 <;>
      (refine ⟨?_, ?_, ?_, ?_⟩ <;> constructor <;> intro h) <;>
      first
        | rfl
        | linarith
        | (exact absurd h (by decide))
        | (obtain ⟨ha, hb⟩ := h; linarith)
        | (exfalso; obtain ⟨ha, hb⟩ := h; linarith)
        | (constructor <;> linarith)
  · unfold generateStatusIndicator
    norm_num

/-- Witness for C1 at concrete inputs: the boundary example lands in Neutral,
a maximize-direction ratio of 2.2 is Positive, and a minimize-direction ratio
of 0.5 is Positive. -/
theorem c1_status_classifier_bands_witness :
    generateStatusIndicator 230000 209475 "income" = "➖ Neutral" ∧
    generateStatusIndicator 220000 100000 "profit" = "✅ Positive" ∧
    generateStatusIndicator 50 100 "cogs" = "✅ Positive" := by
  refine ⟨c1_status_classifier_bands.2.2, ?_, ?_⟩
  · exact (c1_status_classifier_bands.1 220000 100000 "profit" (by decide)).1.mpr
      (by norm_num)
  · exact (c1_status_classifier_bands.2.1 50 100 "cogs" (by decide)).1.mpr (by norm_num)

/-- C10: when the target is nonpositive, both direction branches coerce the
ratio to 0, so the classifier returns Warning for `income`/`profit` and
Positive for every other category, regardless of the actual value. -/
theorem c10_nonpositive_target :
    ∀ (actual target : ℚ) (category : String), target ≤ 0 →
      ((category ∈ (["income", "profit"] : List String) →
          generateStatusIndicator actual target category = "🚨 Warning") ∧
       (category ∉ (["income", "profit"] : List String) →
          generateStatusIndicator actual target category = "✅ Positive")) := by
  intro actual target category ht
  have hnt : ¬ 0 < target := not_lt.mpr ht
  constructor
  · intro hc
    simp only [generateStatusIndicator, if_pos hc, if_neg hnt]
    norm_num
  · intro hc
    simp only [generateStatusIndicator, if_neg hc, if_neg hnt]
    norm_num

/-- Witness for C10 at a negative and a zero target. -/
theorem c10_nonpositive_target_witness :
    generateStatusIndicator 5 (-3) "income" = "🚨 Warning" ∧
    generateStatusIndicator 5 0 "cogs" = "✅ Positive" :=
  ⟨(c10_nonpositive_target 5 (-3) "income" (by norm_num)).1 (by decide),
   (c10_nonpositive_target 5 0 "cogs" (by norm_num)).2 (by decide)⟩

/-- C3 counterexample: `clean_numeric_value` applied to an infinite float
input returns that infinity, so it does not always produce a finite float. -/
theorem c3_counterexample_infinite_input :
    cleanNumericValue (.float .inf) = .inf ∧
    (cleanNumericValue (.float .inf)).isFinite = false ∧
    cleanNumericValue (.str "inf") = .inf := by
  refine ⟨by decide, by decide, by decide⟩

/-- C3 (amended): `clean_numeric_value` is total and never raises, and its
result is finite for every input other than a non-finite float or a string
that parses (after cleaning) to an infinity or NaN; all the listed examples
hold; any string whose cleaned form fails to parse yields 0.0; and the
function is the identity on already-clean finite floats. -/
theorem c3_clean_numeric_value_amended :
    (∀ q : ℚ, cleanNumericValue (.float (.fin q)) = .fin q) ∧
    cleanNumericValue (.str "$1,234.50") = .fin 1234.50 ∧
    cleanNumericValue (.str "(500)") = .fin (-500) ∧
    cleanNumericValue (.str "") = .fin 0 ∧
    cleanNumericValue .none = .fin 0 ∧
    cleanNumericValue (.str "N/A") = .fin 0 ∧
    (∀ n : ℤ, cleanNumericValue (.int n) = .fin n) ∧
    (∀ s : String, pyFloat (String.mk (parsePrep (trimWs s.data)).2) = none →
      cleanNumericValue (.str s) = .fin 0) ∧
    (∀ v : PyVal, (∀ s, v ≠ .str s) → v ≠ .float .inf → v ≠ .float .ninf →
      (cleanNumericValue v).isFinite = true) := by
  refine ⟨?_, ?_, ?_, ?_, ?_, ?_, ?_, ?_, ?_⟩
  · intro q; simp [cleanNumericValue, pdIsna]
  · rw [show (1234.50 : ℚ) = mkRat 2469 2 by rw [Rat.mkRat_eq_div]; norm_num]
    decide
  · decide
  · decide
  · decide
  · decide
  · intro n; simp [cleanNumericValue, pdIsna]
  · intro s h
    by_cases hs : s = ""
    · subst hs; decide
    · have hcond : ¬ (pdIsna (.str s) ∨ PyVal.str s = .str "") := by
        rintro (hpd | heq)
        · rcases hpd with h' | h' <;> exact PyVal.noConfusion h'
        · exact hs (by injection heq)
      unfold cleanNumericValue
      rw [if_neg hcond]
      dsimp only
      split_ifs with hb hneg
      · rfl
      · rw [h]
      · rw [h]
  · intro v hstr hinf hninf
    cases v with
    | none => decide
    | int n => simp [cleanNumericValue, pdIsna, PFloat.isFinite]
    | str s => exact absurd rfl (hstr s)
    | float f =>
      cases f with
      | fin q => simp [cleanNumericValue, pdIsna, PFloat.isFinite]
      | nan => decide
      | inf => exact absurd rfl hinf
      | ninf => exact absurd rfl hninf

/-- Witness for C3 (amended) at concrete inputs. -/
theorem c3_clean_numeric_value_amended_witness :
    cleanNumericValue (.float (.fin (mkRat 37 10))) = .fin (mkRat 37 10) ∧
    cleanNumericValue (.str "abc") = .fin 0 ∧
    (cleanNumericValue (.int 5)).isFinite = true := by
  refine ⟨c3_clean_numeric_value_amended.1 _, ?_, ?_⟩
  · exact c3_clean_numeric_value_amended.2.2.2.2.2.2.2.1 "abc" (by decide)
  · exact c3_clean_numeric_value_amended.2.2.2.2.2.2.2.2 (.int 5)
      (fun s h => PyVal.noConfusion h) (fun h => PyVal.noConfusion h)
      (fun h => PyVal.noConfusion h)

/-- C5 counterexample: for a `FinancialMetrics` value with negative revenue
the derived percentage is 0, not component ÷ revenue × 100 (which is −50
here), so the claimed equation does not hold for every value. -/
theorem c5_counterexample_negative_revenue :
    ({ revenue := -100, expenses := 0, profit := 0, cash_position := 0, cogs := 50,
       marketing := 0, team := 0, overheads := 0 } : FinancialMetrics).cogs_percentage = 0 ∧
    ((-100 : ℚ)) < 0 ∧ (50 : ℚ) / (-100) * 100 = -50 ∧ (0 : ℚ) ≠ -50 := by
  refine ⟨?_, by norm_num, by norm_num, by norm_num⟩
  norm_num [FinancialMetrics.cogs_percentage]

/-- C5 (amended): each derived percentage equals component ÷ revenue × 100
when revenue is positive, and is 0.0 whenever revenue ≤ 0 (in particular when
revenue is zero); the function is total (never raises); and revenue 200000
with cogs 23000 gives a COGS percentage of exactly 11.5. -/
theorem c5_percentages_amended :
    ∀ m : FinancialMetrics,
      (0 < m.revenue →
        (m.cogs_percentage = m.cogs / m.revenue * 100 ∧
         m.marketing_percentage = m.marketing / m.revenue * 100 ∧
         m.team_percentage = m.team / m.revenue * 100 ∧
         m.overhead_percentage = m.overheads / m.revenue * 100 ∧
         m.profit_margin = m.profit / m.revenue * 100)) ∧
      (m.revenue ≤ 0 →
        (m.cogs_percentage = 0 ∧ m.marketing_percentage = 0 ∧ m.team_percentage = 0 ∧
         m.overhead_percentage = 0 ∧ m.profit_margin = 0)) ∧
      (m.revenue = 200000 → m.cogs = 23000 → m.cogs_percentage = 11.5) := by
  intro m
  refine ⟨fun h => ?_, fun h => ?_, fun h1 h2 => ?_⟩
  · refine ⟨?_, ?_, ?_, ?_, ?_⟩ <;>
      simp [FinancialMetrics.cogs_percentage, FinancialMetrics.marketing_percentage,
        FinancialMetrics.team_percentage, FinancialMetrics.overhead_percentage,
        FinancialMetrics.profit_margin, if_pos h]
  · have hn : ¬ 0 < m.revenue := not_lt.mpr h
    refine ⟨?_, ?_, ?_, ?_, ?_⟩ <;>
      simp [FinancialMetrics.cogs_percentage, FinancialMetrics.marketing_percentage,
        FinancialMetrics.team_percentage, FinancialMetrics.overhead_percentage,
        FinancialMetrics.profit_margin, if_neg hn]
  · rw [FinancialMetrics.cogs_percentage, if_pos (by rw [h1]; norm_num), h1, h2]
    norm_num

/-- Witness for C5 (amended) at concrete metric values. -/
theorem c5_percentages_amended_witness :
    ({ revenue := 200000, expenses := 0, profit := 0, cash_position := 0, cogs := 23000,
       marketing := 0, team := 0, overheads := 0 } : FinancialMetrics).cogs_percentage
      = 11.5 ∧
    ({ revenue := 0, expenses := 0, profit := 5, cash_position := 0, cogs := 0,
       marketing := 0, team := 0, overheads := 0 } : FinancialMetrics).profit_margin = 0 := by
  constructor
  · exact (c5_percentages_amended _).2.2 rfl rfl
  · exact ((c5_percentages_amended _).2.1 (by norm_num)).2.2.2.2

lemma mem_of_dictGet? {l : List (String × α)} {k : String} {v : α}
    (h : dictGet? l k = some v) : ∃ p ∈ l, p.2 = v := by
  unfold dictGet? at h
  cases hf : l.find? (fun q => q.1 == k) with
  | none => rw [hf] at h; cases h
  | some q =>
    rw [hf] at h
    exact ⟨q, List.mem_of_find?_eq_some hf, by injection h⟩

lemma pnlRecordAt_profit (i : ℕ) :
    (pnlRecordAt i).profit =
      (pnlRecordAt i).revenue - ((pnlRecordAt i).cogs + (pnlRecordAt i).marketing +
        (pnlRecordAt i).team + (pnlRecordAt i).overhead) := by
  unfold pnlRecordAt monthlyProfit monthlyCogs monthlyMarketing monthlyTeam monthlyOverhead
  simp only [List.getD_eq_getElem?_getD, List.getElem?_zipWith, List.getElem?_map]
  cases h : monthlyRevenue[i]? with
  | none => simp [h]
  | some r =>
    simp only [h, Option.map_some', Option.getD_some]
    ring

lemma pnl_monthly_data_from_nil :
    (List.range pnlMonths.length).foldl
      (fun acc i => dictInsert acc (s!"month_{i}") (pnlRecordAt i)) [] =
    (List.range 12).map (fun i => (s!"month_{i}", pnlRecordAt i)) := by
  rfl

lemma routeByType_df_irrel (role : String) (df df' : DataFrame) (d : ExtractedData) :
    routeByType role df d = routeByType role df' d := by
  unfold routeByType
  dsimp only
  split_ifs <;> rfl

lemma eraseCompany_scan (df : DataFrame) (d : ExtractedData) :
    eraseCompany (scanCompanyName df d) = eraseCompany d := by
  unfold scanCompanyName
  dsimp only
  split <;> rfl

lemma eraseCompany_route (role : String) (df : DataFrame) (d : ExtractedData) :
    eraseCompany (routeByType role df d) = routeByType role df (eraseCompany d) := by
  unfold routeByType
  dsimp only
  split_ifs <;>
    simp [eraseCompany, extractPnlDataEnhanced, extractBalanceSheetDataEnhanced,
      extractCashflowDataEnhanced]

lemma fold_erase : ∀ (roles : List String) (dfs dfs' : List (Option DataFrame))
    (d d' : ExtractedData),
    dfs.map Option.isSome = dfs'.map Option.isSome →
    eraseCompany d = eraseCompany d' →
    eraseCompany ((roles.zip dfs).foldl processFile d) =
      eraseCompany ((roles.zip dfs').foldl processFile d') := by
  intro roles
  induction roles with
  | nil => intro dfs dfs' d d' _ hd; simpa using hd
  | cons r rs ih =>
    intro dfs dfs' d d' hmap hd
    cases dfs with
    | nil =>
      cases dfs' with
      | nil => simpa using hd
      | cons o' os' => simp at hmap
    | cons o os =>
      cases dfs' with
      | nil => simp at hmap
      | cons o' os' =>
        simp only [List.map_cons, List.cons.injEq] at hmap
        obtain ⟨ho, hos⟩ := hmap
        simp only [List.zip_cons_cons, List.foldl_cons]
        apply ih os os' _ _ hos
        cases o with
        | none =>
          cases o' with
          | none => simpa [processFile] using hd
          | some df' => simp at ho
        | some df =>
          cases o' with
          | none => simp at ho
          | some df' =>
            show eraseCompany (routeByType r df (scanCompanyName df d)) =
              eraseCompany (routeByType r df' (scanCompanyName df' d'))
            rw [eraseCompany_route, eraseCompany_scan, hd, routeByType_df_irrel r df df',
              ← eraseCompany_scan df' d', ← eraseCompany_route]

lemma calc_erase (d : ExtractedData) :
    eraseCompany (calcDerivedMetrics d) = calcDerivedMetrics (eraseCompany d) := by
  cases d
  simp only [calcDerivedMetrics, eraseCompany]
  split
  · rfl
  · split <;> rfl

/-! ## Concrete data used by witnesses and counterexamples -/

def demoClock : ClockStrings :=
  { monthYear := "February 2025", prevMonthYear := "January 2025",
    dateTimeFull := "February 28, 2025 (10:00 AM)", yearStr := "2025" }

def demoRecord : MonthlyRecord :=
  { revenue := 100, cogs := 10, marketing := 10, team := 10, overhead := 10, profit := 60 }

def demoData : ExtractedData :=
  { initialData demoClock with monthly_data := [("month_0", demoRecord)] }

def demoDataWithMetrics : ExtractedData :=
  { demoData with latest_metrics := some (snapshotOf demoRecord 0) }

/-- A single-period dataset whose cash series has two distinct entries. -/
def c4Data : ExtractedData :=
  { company_name := "", period := "", latest_month := "", previous_month := "",
    months := [],
    monthly_data := [("month_0", demoRecord)],
    balance_sheet_cash := some [1, 2],
    cash_flow_accounts := none }

/-- A two-period dataset with distinct keys. -/
def c4TwoData : ExtractedData :=
  { company_name := "", period := "", latest_month := "", previous_month := "",
    months := [],
    monthly_data := [("month_0", demoRecord),
      ("month_1",
      { revenue := 200, cogs := 20, marketing := 20, team := 20, overhead := 20,
        profit := 120 })],
    balance_sheet_cash := none,
    cash_flow_accounts := none }

/-- A chart service that fails exactly on the second submission. -/
def svcDemo : ℕ → ChartConfig → Option String :=
  fun i _ => if i = 1 then none else some "u"

def dfA : DataFrame := ⟨[[.str "Alpha Corporation"]]⟩

def dfB : DataFrame := ⟨[[.str "Beta Holdings Inc"], [.int 42]]⟩

/-- C2: with zero MonthlyRecord entries the derivation pass is a no-op and
HTML generation fails with the distinct "No latest metrics available" error;
with at least one period the derivation produces latest metrics, and whenever
latest metrics exist HTML generation succeeds (the no-metrics error is not
raised). -/
theorem c2_no_metrics_error :
    ∀ (d : ExtractedData) (urls : Option (List String)) (now : ClockStrings),
      (d.monthly_data = [] → calcDerivedMetrics d = d) ∧
      (d.latest_metrics = none →
        generateFinancialReportHtml d urls now = .error "No latest metrics available") ∧
      (d.monthly_data ≠ [] → ∃ m, (calcDerivedMetrics d).latest_metrics = some m) ∧
      (∀ m, d.latest_metrics = some m →
        (generateFinancialReportHtml d urls now).isOk = true) := by
  intro d urls now
  refine ⟨fun h => calcDerived_nil h, fun h => ?_, fun h => ?_, fun m h => ?_⟩
  · simp [generateFinancialReportHtml, h]
  · obtain ⟨ld, pd, hld, hpd, hl, hp⟩ := calcDerived_nonempty d h
    exact ⟨_, hl⟩
  · simp only [generateFinancialReportHtml, h]
    rfl

/-- Witness for C2: an empty dataset errors, a one-period dataset derives
metrics and renders. -/
theorem c2_no_metrics_error_witness :
    calcDerivedMetrics (initialData demoClock) = initialData demoClock ∧
    generateFinancialReportHtml (initialData demoClock) none demoClock =
      .error "No latest metrics available" ∧
    (∃ m, (calcDerivedMetrics demoData).latest_metrics = some m) ∧
    (generateFinancialReportHtml demoDataWithMetrics none demoClock).isOk = true := by
  refine ⟨(c2_no_metrics_error _ none demoClock).1 rfl,
    (c2_no_metrics_error _ none demoClock).2.1 rfl,
    (c2_no_metrics_error demoData none demoClock).2.2.1 (by simp [demoData, initialData]),
    (c2_no_metrics_error demoDataWithMetrics none demoClock).2.2.2
      (snapshotOf demoRecord 0) rfl⟩

/-- C4 counterexample: on a single-period dataset whose cash series is
`[1, 2]`, the derivation pass produces a previous snapshot whose
`cash_position` is 1 while the latest snapshot's is 2, so the two snapshots do
not have identical field values. -/
theorem c4_counterexample_single_period_cash :
    (calcDerivedMetrics c4Data).latest_metrics.map (·.cash_position) = some 2 ∧
    (calcDerivedMetrics c4Data).previous_metrics.map (·.cash_position) = some 1 ∧
    (calcDerivedMetrics c4Data).previous_metrics ≠
      (calcDerivedMetrics c4Data).latest_metrics ∧
    c4Data.monthly_data.length = 1 := by
  refine ⟨by decide, by decide, ?_, by decide⟩
  intro heq
  have h := congrArg (Option.map (·.cash_position)) heq
  have h1 : (calcDerivedMetrics c4Data).latest_metrics.map (·.cash_position) = some 2 := by
    decide
  have h2 : (calcDerivedMetrics c4Data).previous_metrics.map (·.cash_position) = some 1 := by
    decide
  rw [h1, h2] at h
  exact absurd h (by decide)

/-- C4 (amended): the latest and previous snapshots are built from the last
and second-to-last entries, in insertion order, of the monthly_data mapping;
when exactly one period exists both snapshots are built from that same entry
(so all monthly-derived fields coincide), but each snapshot's cash_position is
drawn independently from the cash series (last vs second-to-last entry) and
may differ; no crash occurs on single-period input. -/
theorem c4_latest_previous_selection_amended :
    ∀ d : ExtractedData, (d.monthly_data.map Prod.fst).Nodup → d.monthly_data ≠ [] →
      ∃ le pe,
        d.monthly_data.getLast? = some le ∧
        (if 1 < d.monthly_data.length then d.monthly_data.reverse.get? 1
         else d.monthly_data.get? 0) = some pe ∧
        (calcDerivedMetrics d).latest_metrics =
          some (snapshotOf le.2 (latestCashOf d.balance_sheet_cash)) ∧
        (calcDerivedMetrics d).previous_metrics =
          some (snapshotOf pe.2 (prevCashOf d.balance_sheet_cash)) ∧
        (d.monthly_data.length = 1 → pe = le) := by
  intro d hnd hne
  obtain ⟨ld, pd, hld, hpd, hl, hp⟩ := calcDerived_nonempty d hne
  obtain ⟨le, hle⟩ : ∃ le, d.monthly_data.getLast? = some le := by
    cases h : d.monthly_data.getLast? with
    | none => exact absurd (List.getLast?_eq_none_iff.mp h) hne
    | some a => exact ⟨a, rfl⟩
  have hkey : (pyGetNeg (d.monthly_data.map Prod.fst) 1).getD "" = le.1 := by
    rw [pyGetNeg_one, List.getLast?_map, hle]
    rfl
  have hmemle : le ∈ d.monthly_data := List.mem_of_mem_getLast? hle
  have hgle : dictGet? d.monthly_data le.1 = some le.2 :=
    dictGet?_of_mem_nodup hnd (by rw [Prod.mk.eta]; exact hmemle)
  have hld2 : ld = le.2 := by
    rw [hkey, hgle] at hld
    exact (Option.some.inj hld).symm
  by_cases hlen : 1 < d.monthly_data.length
  · obtain ⟨pe, hpe⟩ : ∃ pe, d.monthly_data.reverse.get? 1 = some pe := by
      cases h : d.monthly_data.reverse.get? 1 with
      | none =>
        have := List.get?_eq_none.mp h
        rw [List.length_reverse] at this
        omega
      | some a => exact ⟨a, rfl⟩
    have hkey2 : (if 1 < (d.monthly_data.map Prod.fst).length then
        (pyGetNeg (d.monthly_data.map Prod.fst) 2).getD ""
       else ((d.monthly_data.map Prod.fst).get? 0).getD "") = pe.1 := by
      rw [if_pos (by simpa using hlen), pyGetNeg_two, ← List.map_reverse,
        List.get?_map, hpe]
      rfl
    have hmempe : pe ∈ d.monthly_data := List.mem_reverse.mp (List.get?_mem hpe)
    have hgpe : dictGet? d.monthly_data pe.1 = some pe.2 :=
      dictGet?_of_mem_nodup hnd (by rw [Prod.mk.eta]; exact hmempe)
    have hpd2 : pd = pe.2 := by
      rw [hkey2, hgpe] at hpd
      exact (Option.some.inj hpd).symm
    refine ⟨le, pe, hle, by rw [if_pos hlen]; exact hpe, ?_, ?_, fun h1 => by omega⟩
    · rw [hl, hld2]
    · rw [hp, hpd2]
  · have hlen1 : d.monthly_data.length = 1 := by
      have : 0 < d.monthly_data.length := List.length_pos.mpr hne
      omega
    obtain ⟨a, ha⟩ := List.length_eq_one.mp hlen1
    have hpe : d.monthly_data.get? 0 = some a := by rw [ha]; rfl
    have hlea : le = a := by
      rw [ha, List.getLast?_singleton] at hle
      exact (Option.some.inj hle).symm
    have hkey2 : (if 1 < (d.monthly_data.map Prod.fst).length then
        (pyGetNeg (d.monthly_data.map Prod.fst) 2).getD ""
       else ((d.monthly_data.map Prod.fst).get? 0).getD "") = a.1 := by
      rw [if_neg (by simpa using hlen), List.get?_map, hpe]
      rfl
    have hga : dictGet? d.monthly_data a.1 = some a.2 :=
      dictGet?_of_mem_nodup hnd (by rw [Prod.mk.eta, ha]; exact List.mem_singleton.mpr rfl)
    have hpd2 : pd = a.2 := by
      rw [hkey2, hga] at hpd
      exact (Option.some.inj hpd).symm
    refine ⟨le, a, hle, by rw [if_neg hlen]; exact hpe, ?_, ?_, fun _ => hlea.symm⟩
    · rw [hl, hld2]
    · rw [hp, hpd2]

/-- Witness for C4 (amended) on a concrete two-period dataset. -/
theorem c4_latest_previous_selection_amended_witness :
    ∃ le pe,
      c4TwoData.monthly_data.getLast? = some le ∧
      (if 1 < c4TwoData.monthly_data.length then c4TwoData.monthly_data.reverse.get? 1
       else c4TwoData.monthly_data.get? 0) = some pe ∧
      (calcDerivedMetrics c4TwoData).latest_metrics =
        some (snapshotOf le.2 (latestCashOf c4TwoData.balance_sheet_cash)) ∧
      (calcDerivedMetrics c4TwoData).previous_metrics =
        some (snapshotOf pe.2 (prevCashOf c4TwoData.balance_sheet_cash)) ∧
      (c4TwoData.monthly_data.length = 1 → pe = le) :=
  c4_latest_previous_selection_amended c4TwoData (by decide) (by decide)

/-- C6: every MonthlyRecord the P&L extractor writes satisfies
profit = revenue − (cogs + marketing + team + overhead), and every derived
snapshot built from records satisfying that invariant has
expenses = cogs + marketing + team + overheads and
revenue − expenses = profit. -/
theorem c6_profit_recomputed_invariant :
    (∀ (df : DataFrame) (d : ExtractedData), d.monthly_data = [] →
      ∀ p ∈ (extractPnlDataEnhanced df d).monthly_data,
        p.2.profit = p.2.revenue - (p.2.cogs + p.2.marketing + p.2.team + p.2.overhead)) ∧
    (∀ d : ExtractedData, d.monthly_data ≠ [] →
      (∀ p ∈ d.monthly_data,
        p.2.profit = p.2.revenue - (p.2.cogs + p.2.marketing + p.2.team + p.2.overhead)) →
      ∀ m, ((calcDerivedMetrics d).latest_metrics = some m ∨
            (calcDerivedMetrics d).previous_metrics = some m) →
        m.expenses = m.cogs + m.marketing + m.team + m.overheads ∧
        m.revenue - m.expenses = m.profit) := by
  constructor
  · intro df d h p hp
    have hmd : (extractPnlDataEnhanced df d).monthly_data =
        (List.range 12).map (fun i => (s!"month_{i}", pnlRecordAt i)) := by
      simp only [extractPnlDataEnhanced, h]
      exact pnl_monthly_data_from_nil
    rw [hmd] at hp
    simp only [List.mem_map, List.mem_range] at hp
    obtain ⟨i, _, rfl⟩ := hp
    exact pnlRecordAt_profit i
  · intro d hne hinv m hm
    obtain ⟨ld, pd, hld, hpd, hl, hp⟩ := calcDerived_nonempty d hne
    rcases hm with hm | hm
    · rw [hl] at hm
      injection hm with hm
      subst hm
      refine ⟨rfl, ?_⟩
      obtain ⟨q, hq, hq2⟩ := mem_of_dictGet? hld
      have hq3 := hinv q hq
      rw [hq2] at hq3
      exact (by rw [hq3] : ld.revenue -
        (ld.cogs + ld.marketing + ld.team + ld.overhead) = ld.profit)
    · rw [hp] at hm
      injection hm with hm
      subst hm
      refine ⟨rfl, ?_⟩
      obtain ⟨q, hq, hq2⟩ := mem_of_dictGet? hpd
      have hq3 := hinv q hq
      rw [hq2] at hq3
      exact (by rw [hq3] : pd.revenue -
        (pd.cogs + pd.marketing + pd.team + pd.overhead) = pd.profit)

/-- Witness for C6 on a concrete one-period dataset. -/
theorem c6_profit_recomputed_invariant_witness :
    (snapshotOf demoRecord 0).expenses =
      (snapshotOf demoRecord 0).cogs + (snapshotOf demoRecord 0).marketing +
      (snapshotOf demoRecord 0).team + (snapshotOf demoRecord 0).overheads ∧
    (snapshotOf demoRecord 0).revenue - (snapshotOf demoRecord 0).expenses =
      (snapshotOf demoRecord 0).profit := by
  refine c6_profit_recomputed_invariant.2 demoData (by simp [demoData, initialData])
    ?_ (snapshotOf demoRecord 0) (Or.inl rfl)
  intro p hp
  have : p = ("month_0", demoRecord) := by
    have hmd : demoData.monthly_data = [("month_0", demoRecord)] := rfl
    rw [hmd] at hp
    simpa using hp
  subst this
  norm_num [demoRecord]

/-- C7: the latest snapshot's cash position is the last entry of the
cash-position series or 0 if the series is empty, the previous snapshot's is
the second-to-last entry or 0 if the series has fewer than two entries, and
the cash-movement table reports 0 previous and current cash when the series is
missing; all accessors agree with these total specifications, so no operation
indexes out of range. -/
theorem c7_cash_series_safety :
    (∀ obc : Option (List ℚ), latestCashOf obc = specLatestCash obc) ∧
    (∀ obc : Option (List ℚ), prevCashOf obc = specPrevCash obc) ∧
    (∀ obc : Option (List ℚ),
      cashMovementFigures obc = (specPrevCash obc, specLatestCash obc)) ∧
    cashMovementFigures none = (0, 0) ∧
    (∀ d : ExtractedData, d.monthly_data ≠ [] →
      ((calcDerivedMetrics d).latest_metrics.map (·.cash_position) =
        some (specLatestCash d.balance_sheet_cash)) ∧
      ((calcDerivedMetrics d).previous_metrics.map (·.cash_position) =
        some (specPrevCash d.balance_sheet_cash))) := by
  refine ⟨latestCashOf_eq_spec, prevCashOf_eq_spec, ?_, by decide, ?_⟩
  · intro obc
    rw [cashMovementFigures_eq_accessors, latestCashOf_eq_spec, prevCashOf_eq_spec]
  · intro d hne
    obtain ⟨ld, pd, hld, hpd, hl, hp⟩ := calcDerived_nonempty d hne
    rw [hl, hp]
    simp [snapshotOf, latestCashOf_eq_spec, prevCashOf_eq_spec]

/-- Witness for C7 at a concrete series and dataset. -/
theorem c7_cash_series_safety_witness :
    latestCashOf (some [4, 7]) = specLatestCash (some [4, 7]) ∧
    (calcDerivedMetrics demoData).latest_metrics.map (·.cash_position) = some 0 := by
  constructor
  · exact c7_cash_series_safety.1 (some [4, 7])
  · have h := (c7_cash_series_safety.2.2.2.2 demoData (by simp [demoData, initialData])).1
    simpa [demoData, initialData, specLatestCash] using h

/-- C8: `create_professional_charts` always returns exactly three strings;
with no latest metrics it returns three empty placeholders; otherwise the
three chart configurations are submitted independently and slot `i` holds the
`i`-th submission's url, or the empty string when that submission failed —
one failing chart never affects the other slots. -/
theorem c8_charts_count_and_isolation :
    ∀ (d : ExtractedData) (svc : ℕ → ChartConfig → Option String),
      (createProfessionalCharts d svc).length = 3 ∧
      (d.latest_metrics = none → createProfessionalCharts d svc = ["", "", ""]) ∧
      (∀ lm, d.latest_metrics = some lm →
        ∃ c0 c1 c2, chartConfigs d lm = [c0, c1, c2] ∧
          createProfessionalCharts d svc =
            [(svc 0 c0).getD "", (svc 1 c1).getD "", (svc 2 c2).getD ""]) := by
  intro d svc
  refine ⟨?_, fun h => ?_, fun lm h => ?_⟩
  · cases hl : d.latest_metrics with
    | none => simp [createProfessionalCharts, hl]
    | some lm =>
      simp only [createProfessionalCharts, hl]
      rfl
  · simp [createProfessionalCharts, h]
  · refine ⟨_, _, _, rfl, ?_⟩
    simp only [createProfessionalCharts, h]
    rfl

/-- Witness for C8: with a service failing exactly on the second submission,
the first and third slots still receive their urls. -/
theorem c8_charts_count_and_isolation_witness :
    (createProfessionalCharts demoDataWithMetrics svcDemo).length = 3 ∧
    createProfessionalCharts demoData svcDemo = ["", "", ""] ∧
    createProfessionalCharts demoDataWithMetrics svcDemo = ["u", "", "u"] := by
  refine ⟨(c8_charts_count_and_isolation _ svcDemo).1,
    (c8_charts_count_and_isolation demoData svcDemo).2.1 rfl, ?_⟩
  obtain ⟨c0, c1, c2, hcfg, hres⟩ :=
    (c8_charts_count_and_isolation demoDataWithMetrics svcDemo).2.2
      (snapshotOf demoRecord 0) rfl
  rw [hres]
  rfl

/-- C9: each type-specific extractor produces identical output for any two
dataframes (the fixed 12-month labels, revenue/cost series, cash-position
series and account list), and the whole extraction pipeline's output is
independent of the uploaded cells apart from the company name. -/
theorem c9_extraction_independent_of_cells :
    (∀ (df df' : DataFrame) (d : ExtractedData),
      extractPnlDataEnhanced df d = extractPnlDataEnhanced df' d ∧
      extractBalanceSheetDataEnhanced df d = extractBalanceSheetDataEnhanced df' d ∧
      extractCashflowDataEnhanced df d = extractCashflowDataEnhanced df' d) ∧
    (∀ (df : DataFrame) (d : ExtractedData),
      (extractPnlDataEnhanced df d).months = pnlMonths ∧
      (extractBalanceSheetDataEnhanced df d).balance_sheet_cash = some bsCashPositions ∧
      (extractCashflowDataEnhanced df d).cash_flow_accounts = some cfAccounts) ∧
    (∀ (roles : List String) (dfs dfs' : List (Option DataFrame)) (now : ClockStrings),
      dfs.map Option.isSome = dfs'.map Option.isSome →
      eraseCompany (extractFinancialDataSmart (roles.zip dfs) now) =
        eraseCompany (extractFinancialDataSmart (roles.zip dfs') now)) := by
  refine ⟨fun df df' d => ⟨rfl, rfl, rfl⟩, fun df d => ⟨rfl, rfl, rfl⟩, ?_⟩
  intro roles dfs dfs' now hmap
  unfold extractFinancialDataSmart
  rw [calc_erase, calc_erase, fold_erase roles dfs dfs' _ _ hmap rfl]

/-- Witness for C9: two workbooks with different cell contents yield the same
extracted dataset up to the company name. -/
theorem c9_extraction_independent_of_cells_witness :
    eraseCompany (extractFinancialDataSmart (["profit_loss"].zip [some dfA]) demoClock) =
      eraseCompany (extractFinancialDataSmart (["profit_loss"].zip [some dfB]) demoClock) :=
  c9_extraction_independent_of_cells.2.2 ["profit_loss"] [some dfA] [some dfB] demoClock rfl

end FinReport
